import Mathlib

/-!
Verification of the marking-addendum generator.

A shallow embedding of `scripts/generate_marking_ds.py`: the template
extractor (`extract_template_blocks`), the localization helpers
(`format_ru_date`, `agreement_label_dative`, `agreement_label_genitive`),
and the document renderer (`add_para`, `add_two_col`, `build_doc`).

Reference documents are modelled as ordered lists of raw paragraph texts;
the clause map is an association list in the source's construction order;
paragraphs of the output document are records of the visual properties the
script sets.  Failures of the Python code (tuple-unpack errors and
`KeyError` in `format_ru_date`) are modelled with `Option`.
-/

namespace MarkingDS

/-- The characters Python's `str.strip()` removes: the Unicode whitespace
set used by `str.isspace`. -/
def isPySpace (c : Char) : Bool :=
  (0x09 ≤ c.val && c.val ≤ 0x0d) || c.val == 0x20 ||
  (0x1c ≤ c.val && c.val ≤ 0x1f) || c.val == 0x85 || c.val == 0xa0 ||
  c.val == 0x1680 || (0x2000 ≤ c.val && c.val ≤ 0x200a) ||
  c.val == 0x2028 || c.val == 0x2029 || c.val == 0x202f ||
  c.val == 0x205f || c.val == 0x3000

/-- Remove the given characters from both ends of a character list
(Python `str.strip(chars)` over an explicit character set). -/
def stripChars (set : List Char) (cs : List Char) : List Char :=
  ((cs.dropWhile (set.contains ·)).reverse.dropWhile (set.contains ·)).reverse

/-- Python `str.strip()`: trim Unicode whitespace from both ends. -/
def stripWhitespace (cs : List Char) : List Char :=
  ((cs.dropWhile isPySpace).reverse.dropWhile isPySpace).reverse

/-- The per-character substitutions of `clean`: paragraph separator
U+2028 becomes a newline, no-break space U+00A0 becomes a space. -/
def substituteChar (c : Char) : Char :=
  if c = '\u2028' then '\n' else if c = '\u00A0' then ' ' else c

/-- `clean(text)`: `text.replace(U+2028, "\n").replace("\xa0", " ").strip()`. -/
def clean (s : String) : String :=
  String.mk (stripWhitespace (s.data.map substituteChar))

/-- The `MONTHS` dictionary: month code to Russian genitive month name. -/
def MONTHS : List (String × String) :=
  [("01", "января"), ("02", "февраля"), ("03", "марта"), ("04", "апреля"),
   ("05", "мая"), ("06", "июня"), ("07", "июля"), ("08", "августа"),
   ("09", "сентября"), ("10", "октября"), ("11", "ноября"), ("12", "декабря")]

/-- Python `str.split(".")` on a character list: split at every dot,
keeping empty segments (so the result of splitting the empty string is
one empty segment). -/
def splitOnDot : List Char → List (List Char)
  | [] => [[]]
  | c :: cs =>
    if c = '.' then [] :: splitOnDot cs
    else
      match splitOnDot cs with
      | [] => [[c]]
      | h :: t => (c :: h) :: t

/-- `format_ru_date(date_ddmmyyyy)`: split on dots into day, month, year
and look the month code up in `MONTHS`.  `none` models the Python
exceptions (tuple-unpack failure when the split does not yield exactly
three parts, `KeyError` for an unknown month code). -/
def format_ru_date (date_ddmmyyyy : String) : Option String :=
  match (splitOnDot date_ddmmyyyy.data).map String.mk with
  | [day, month, year] =>
    (MONTHS.lookup month).map
      (fun name => "«" ++ day ++ "» " ++ name ++ " " ++ year ++ " года")
  | _ => none

/-- `agreement_label_dative(kind)`. -/
def agreement_label_dative (kind : String) : String :=
  if kind = "agent" then "агентскому договору" else "договору"

/-- `agreement_label_genitive(kind)`. -/
def agreement_label_genitive (kind : String) : String :=
  if kind = "agent" then "агентского договора" else "договора"

/-- The hard-coded fallback for the `"bullets"` clause. -/
def FALLBACK_BULLETS : String :=
  "— администрирование размещений, подлежащих обязательной маркировке;\n" ++
  "— взаимодействие с рекламной платформой;\n" ++
  "— контроль корректности передачи данных;\n" ++
  "— формирование и сверку отчётности по маркируемой рекламе."

/-- `extract_template_blocks`: the reference document is its list of raw
paragraph texts; `p` is the cleaned paragraph list and each clause key is
bound to `p[i] if len(p) > i else fallback`, which is exactly
`List.getD`.  The association list keeps the source's construction
order. -/
def extract_template_blocks (paragraphs : List String) : List (String × String) :=
  let p := paragraphs.map clean
  [("h1", p.getD 6 "1. Предмет соглашения"),
   ("p12", p.getD 8 "1.2. Услуги по сопровождению обязательной маркировки рекламы включают:"),
   ("bullets", p.getD 9 FALLBACK_BULLETS),
   ("h2", p.getD 10 "2. Стоимость услуг и порядок расчётов"),
   ("p21", p.getD 11 "2.1. Стоимость Услуг маркировки составляет 3% от объёма размещений, подлежащих обязательной маркировке (за исключением поисковых размещений), согласно официальным данным рекламной платформы."),
   ("p22", p.getD 12 "2.2. Расчёт стоимости производится на основании отчёта платформы, формируемого в месяце, следующем за отчётным."),
   ("p23", p.getD 13 "2.3. В случае корректировок платформы перерасчёт стоимости производится в следующем отчётном периоде."),
   ("h3", p.getD 14 "3. Сроки оплаты"),
   ("p31", p.getD 15 "3.1. Принципал обязуется оплатить сумму, рассчитанную по п.2.2, в течение 10 календарных дней с момента выставления Агентом счёта на оплату."),
   ("p32", p.getD 16 "3.2. Оплата производится на расчётный счёт Агента, указанный в Договоре, с обязательной ссылкой на номер и дату настоящего Дополнительного соглашения."),
   ("h4", p.getD 17 "4. Прочие условия"),
   ("p41", p.getD 18 "4.1. Настоящее Дополнительное соглашение является неотъемлемой частью Договора."),
   ("p42", p.getD 19 "4.2. Все остальные условия Договора остаются без изменений и сохраняют силу."),
   ("p43", p.getD 20 "4.3. Настоящее Дополнительное соглашение вступает в силу с момента подписания обеими сторонами."),
   ("h5", p.getD 21 "5. Подписи сторон")]

/-- The fixed clause keys actually constructed by the extractor, in
order. -/
def CLAUSE_KEYS : List String :=
  ["h1", "p12", "bullets", "h2", "p21", "p22", "p23", "h3", "p31", "p32",
   "h4", "p41", "p42", "p43", "h5"]

/-- Paragraph alignments used by the script (`WD_ALIGN_PARAGRAPH`). -/
inductive Align
  | center
  | left
  | justify
deriving DecidableEq

/-- Tab-stop alignments used by the script (`WD_TAB_ALIGNMENT`). -/
inductive TabAlign
  | left
  | right
deriving DecidableEq

/-- One output paragraph: the text of its runs (tab characters included)
and every visual property the script sets.  `none` in an `Option` field
means the script leaves that property unset on this paragraph.  Lengths
in centimetres and the line-spacing multiple are rationals. -/
structure Para where
  text : String
  align : Option Align
  bold : Option Bool
  size : Nat
  before : Option Nat
  after : Nat
  lineSpacing : ℚ
  firstIndentCm : Option ℚ
  tabStop : Option (ℚ × TabAlign)
deriving DecidableEq

/-- The keyword options of `add_para`, with the source's defaults. -/
structure AddParaConfig where
  align : Align := Align.justify
  bold : Bool := false
  size : Nat := 12
  before : Nat := 0
  after : Nat := 6
  first_indent : Bool := true
deriving DecidableEq

/-- `add_para(doc, text, ...)`: builds one paragraph; line spacing is the
constant 1.15 and the 1.25 cm first-line indent is applied exactly when
`first_indent` is set. -/
def add_para (cfg : AddParaConfig) (text : String) : Para :=
  { text := text
    align := some cfg.align
    bold := some cfg.bold
    size := cfg.size
    before := some cfg.before
    after := cfg.after
    lineSpacing := 23 / 20
    firstIndentCm := if cfg.first_indent then some (5 / 4) else none
    tabStop := none }

/-- `add_two_col(doc, left, right, ...)`: a left-aligned paragraph whose
text is the two columns joined by a tab, with a left tab stop at
8.8 cm. -/
def add_two_col (left right : String) (bold : Bool) (after : Nat) : Para :=
  { text := left ++ "\t" ++ right
    align := some Align.left
    bold := some bold
    size := 12
    before := none
    after := after
    lineSpacing := 23 / 20
    firstIndentCm := none
    tabStop := some (44 / 5, TabAlign.left) }

/-- The city/date line built inline in `build_doc`: no alignment or bold
is set, space-after 8 pt, a right tab stop at 16.5 cm. -/
def city_line_para (city datePhrase : String) : Para :=
  { text := city ++ "\t" ++ datePhrase
    align := none
    bold := none
    size := 12
    before := none
    after := 8
    lineSpacing := 23 / 20
    firstIndentCm := none
    tabStop := some (33 / 2, TabAlign.right) }

/-- Newline or carriage return, the character class of the bullet-split
pattern `[\n\r]+`. -/
def isNL (c : Char) : Bool :=
  c = '\n' || c = '\r'

/-- `re.split(r"[\n\r]+", s)` on a character list: every maximal run of
newline/carriage-return characters is one separator. -/
def splitNLRuns : List Char → List (List Char)
  | [] => [[]]
  | c :: cs =>
    if isNL c then
      match cs with
      | [] => [] :: splitNLRuns cs
      | c2 :: _ => if isNL c2 then splitNLRuns cs else [] :: splitNLRuns cs
    else
      match splitNLRuns cs with
      | [] => [[c]]
      | h :: t => (c :: h) :: t

/-- The bullet-splitting step of `build_doc`:
`[x.strip(" -—\t") for x in re.split(r"[\n\r]+", bullets) if x.strip()]`. -/
def bullet_items (bullets : String) : List String :=
  ((splitNLRuns bullets.data).filter
      (fun x => !(stripWhitespace x).isEmpty)).map
    (fun x => String.mk (stripChars [' ', '-', '—', '\t'] x))

/-- The caller-supplied parameter set (`argparse` namespace fields used
by `build_doc`). -/
structure Args where
  ds_no : String
  agreement_kind : String
  agreement_no : String
  agreement_date : String
  sign_date : String
  city : String
  principal_full : String
  principal_short : String
  principal_position_intro : String
  principal_position_sign : String
  principal_signer_full : String
  principal_signer_short : String
  acting_word : String
deriving DecidableEq

/-- The text of body paragraph 1.1, interpolated from the parameter set
only; `agreementDatePhrase` is `format_ru_date(args.agreement_date)` and
the final 5 characters (" года") are dropped, as in the source's
`[: -5]` slice. -/
def p11_text (args : Args) (agreementDatePhrase : String) : String :=
  "1.1. Настоящее Дополнительное соглашение регулирует порядок расчётов и оказания услуг по " ++
  "сопровождению обязательной маркировки рекламы (далее — «Услуги маркировки») в рамках " ++
  agreement_label_genitive args.agreement_kind ++ " № " ++ args.agreement_no ++
  " от " ++ (agreementDatePhrase.dropRight 5) ++ " г. (далее — «Договор»)."

/-- The intro paragraph text of `build_doc`. -/
def intro_text (args : Args) : String :=
  "Индивидуальный предприниматель Замятин Николай Григорьевич " ++
  "(ОГРНИП 313590433900045), именуемый в дальнейшем «Агент», с одной стороны, " ++
  "и " ++ args.principal_full ++ ", в лице " ++ args.principal_position_intro ++
  " " ++ args.principal_signer_full ++ ", " ++
  args.acting_word ++ " на основании Устава, именуемое, в дальнейшем «Принципал», " ++
  "с другой стороны, совместно именуемые «Стороны», заключили настоящее " ++
  "Дополнительное соглашение №" ++ args.ds_no ++ " (далее - Соглашение) о нижеследующем:"

/-- The ordered paragraph sequence `build_doc` emits, given the fifteen
clause texts and the two formatted dates. -/
def rendered_paras (args : Args)
    (h1 p12 bullets h2 p21 p22 p23 h3 p31 p32 h4 p41 p42 p43 h5 : String)
    (signDatePhrase agreementDatePhrase : String) : List Para :=
  [add_para { align := Align.center, bold := true, size := 14, after := 6,
              first_indent := false }
      ("Дополнительное соглашение № " ++ args.ds_no),
   add_para { align := Align.center, size := 12, after := 10, first_indent := false }
      ("к " ++ agreement_label_dative args.agreement_kind ++ " № " ++
       args.agreement_no ++ " от " ++ args.agreement_date ++ "."),
   city_line_para args.city signDatePhrase,
   add_para { after := 8 } (intro_text args),
   add_para { align := Align.left, bold := true, before := 8, after := 4,
              first_indent := false } h1,
   add_para { after := 4, first_indent := false } (p11_text args agreementDatePhrase),
   add_para { after := 3, first_indent := false } p12] ++
  (bullet_items bullets).map
    (fun item => add_para { after := 2, first_indent := false } ("• " ++ item)) ++
  [add_para { align := Align.left, bold := true, before := 8, after := 4,
              first_indent := false } h2,
   add_para { after := 3, first_indent := false } p21,
   add_para { after := 3, first_indent := false } p22,
   add_para { after := 6, first_indent := false } p23,
   add_para { align := Align.left, bold := true, before := 8, after := 4,
              first_indent := false } h3,
   add_para { after := 3, first_indent := false } p31,
   add_para { after := 6, first_indent := false } p32,
   add_para { align := Align.left, bold := true, before := 8, after := 4,
              first_indent := false } h4,
   add_para { after := 3, first_indent := false } p41,
   add_para { after := 3, first_indent := false } p42,
   add_para { after := 8, first_indent := false } p43,
   add_para { align := Align.left, bold := true, before := 8, after := 4,
              first_indent := false } h5,
   add_two_col "Принципал" "Агент" true 4,
   add_two_col args.principal_short "ИП Замятин Николай Григорьевич" false 2,
   add_two_col args.principal_position_sign "" false 8,
   add_two_col "____________ М.П." "____________ М.П." false 2,
   add_two_col args.principal_signer_short "Замятин Н.Г." false 0]

/-- `build_doc(args)`: extract the clause map from the reference
document, format the two dates, and emit the fixed paragraph sequence.
`none` models the uncaught Python exceptions of `format_ru_date` (and
the impossible `KeyError` on the freshly built clause dict). -/
def build_doc (args : Args) (refdoc : List String) : Option (List Para) := do
  let template := extract_template_blocks refdoc
  let h1 ← template.lookup "h1"
  let p12 ← template.lookup "p12"
  let bullets ← template.lookup "bullets"
  let h2 ← template.lookup "h2"
  let p21 ← template.lookup "p21"
  let p22 ← template.lookup "p22"
  let p23 ← template.lookup "p23"
  let h3 ← template.lookup "h3"
  let p31 ← template.lookup "p31"
  let p32 ← template.lookup "p32"
  let h4 ← template.lookup "h4"
  let p41 ← template.lookup "p41"
  let p42 ← template.lookup "p42"
  let p43 ← template.lookup "p43"
  let h5 ← template.lookup "h5"
  let signDatePhrase ← format_ru_date args.sign_date
  let agreementDatePhrase ← format_ru_date args.agreement_date
  return rendered_paras args h1 p12 bullets h2 p21 p22 p23 h3 p31 p32 h4
    p41 p42 p43 h5 signDatePhrase agreementDatePhrase

/-- A concrete valid parameter set, used to instantiate the theorems. -/
def args0 : Args :=
  { ds_no := "1"
    agreement_kind := "agent"
    agreement_no := "AG-092023-1880"
    agreement_date := "02.02.2024"
    sign_date := "01.01.2024"
    city := "г. Пермь"
    principal_full := "ООО «Ромашка»"
    principal_short := "ООО «Ромашка»"
    principal_position_intro := "Генерального директора"
    principal_position_sign := "Генеральный директор"
    principal_signer_full := "Иванова Ивана Ивановича"
    principal_signer_short := "Иванов И.И."
    acting_word := "действующего" }

/-- A concrete reference document with the canonical 22-paragraph
layout. -/
def refdoc0 : List String := List.replicate 22 "t"

/-- A canonical-layout reference document whose bullets paragraph
(index 9) holds one line. -/
def refdocA : List String := (List.replicate 22 "t").set 9 "a"

/-- A canonical-layout reference document whose bullets paragraph
(index 9) holds two lines. -/
def refdocB : List String := (List.replicate 22 "t").set 9 "a\nb"

/-- The documented hard-coded fallback text of every clause key, in the
extractor's construction order. -/
def FALLBACK_CLAUSES : List (String × String) :=
  [("h1", "1. Предмет соглашения"),
   ("p12", "1.2. Услуги по сопровождению обязательной маркировки рекламы включают:"),
   ("bullets", FALLBACK_BULLETS),
   ("h2", "2. Стоимость услуг и порядок расчётов"),
   ("p21", "2.1. Стоимость Услуг маркировки составляет 3% от объёма размещений, подлежащих обязательной маркировке (за исключением поисковых размещений), согласно официальным данным рекламной платформы."),
   ("p22", "2.2. Расчёт стоимости производится на основании отчёта платформы, формируемого в месяце, следующем за отчётным."),
   ("p23", "2.3. В случае корректировок платформы перерасчёт стоимости производится в следующем отчётном периоде."),
   ("h3", "3. Сроки оплаты"),
   ("p31", "3.1. Принципал обязуется оплатить сумму, рассчитанную по п.2.2, в течение 10 календарных дней с момента выставления Агентом счёта на оплату."),
   ("p32", "3.2. Оплата производится на расчётный счёт Агента, указанный в Договоре, с обязательной ссылкой на номер и дату настоящего Дополнительного соглашения."),
   ("h4", "4. Прочие условия"),
   ("p41", "4.1. Настоящее Дополнительное соглашение является неотъемлемой частью Договора."),
   ("p42", "4.2. Все остальные условия Договора остаются без изменений и сохраняют силу."),
   ("p43", "4.3. Настоящее Дополнительное соглашение вступает в силу с момента подписания обеими сторонами."),
   ("h5", "5. Подписи сторон")]

/-- A bullet item is well-formed when it does not start with a bullet
marker (em-dash, hyphen, the rendered bullet) or whitespace, and carries
no leading or trailing whitespace. -/
def good_item (s : String) : Bool :=
  (match s.data with
   | [] => true
   | c :: _ => !(c = '—' || c = '-' || c = '•' || isPySpace c)) &&
  (stripWhitespace s.data == s.data)

/-! ## Helper lemmas -/

lemma mk_data (s : String) : String.mk s.data = s := rfl

lemma data_append (s t : String) : (s ++ t).data = s.data ++ t.data := rfl

lemma splitOnDot_no_dot (a : List Char) (h : '.' ∉ a) : splitOnDot a = [a] := by
  induction a with
  | nil => rfl
  | cons c cs ih =>
    have hc : ¬ c = '.' := by
      intro e
      exact h (by rw [e]; exact List.mem_cons_self _ _)
    have hcs : '.' ∉ cs := fun hmem => h (List.mem_cons_of_mem _ hmem)
    simp only [splitOnDot, if_neg hc, ih hcs]

lemma splitOnDot_append (a rest : List Char) (h : '.' ∉ a) :
    splitOnDot (a ++ '.' :: rest) = a :: splitOnDot rest := by
  induction a with
  | nil => simp [splitOnDot]
  | cons c cs ih =>
    have hc : ¬ c = '.' := by
      intro e
      exact h (by rw [e]; exact List.mem_cons_self _ _)
    have hcs : '.' ∉ cs := fun hmem => h (List.mem_cons_of_mem _ hmem)
    simp only [List.cons_append, splitOnDot, if_neg hc, List.append_eq, ih hcs]

lemma lookup_key_no_dot (m name : String) :
    ∀ l : List (String × String), (∀ kv ∈ l, '.' ∉ kv.1.data) →
      l.lookup m = some name → '.' ∉ m.data := by
  intro l
  induction l with
  | nil => intro _ hl; simp [List.lookup] at hl
  | cons kv t ih =>
    intro hkeys hl
    obtain ⟨k, v⟩ := kv
    simp only [List.lookup] at hl
    split at hl
    · rename_i heq
      have hmk : m = k := eq_of_beq heq
      subst hmk
      exact hkeys (m, v) (List.mem_cons_self _ _)
    · exact ih (fun x hx => hkeys x (List.mem_cons_of_mem _ hx)) hl

lemma month_code_no_dot (m name : String) (h : MONTHS.lookup m = some name) :
    '.' ∉ m.data :=
  lookup_key_no_dot m name MONTHS (by decide) h

lemma format_ru_date_split (d m y : String)
    (hd : '.' ∉ d.data) (hm : '.' ∉ m.data) (hy : '.' ∉ y.data) :
    format_ru_date (d ++ "." ++ m ++ "." ++ y) =
      (MONTHS.lookup m).map
        (fun name => "«" ++ d ++ "» " ++ name ++ " " ++ y ++ " года") := by
  have hdata : (d ++ "." ++ m ++ "." ++ y).data
      = d.data ++ '.' :: (m.data ++ '.' :: y.data) := by
    show (((d.data ++ ['.']) ++ m.data) ++ ['.']) ++ y.data
        = d.data ++ '.' :: (m.data ++ '.' :: y.data)
    simp [List.append_assoc]
  unfold format_ru_date
  rw [hdata, splitOnDot_append _ _ hd, splitOnDot_append _ _ hm,
    splitOnDot_no_dot _ hy]
  simp only [List.map_cons, List.map_nil, mk_data]

lemma extract_short (ps : List String) (h : ps.length < 7) :
    extract_template_blocks ps = FALLBACK_CLAUSES := by
  have H : ∀ i : ℕ, 6 ≤ i → (ps.map clean).length ≤ i := by
    intro i hi
    rw [List.length_map]
    omega
  simp only [extract_template_blocks]
  rw [List.getD_eq_default _ _ (H 6 (by omega)),
    List.getD_eq_default _ _ (H 8 (by omega)),
    List.getD_eq_default _ _ (H 9 (by omega)),
    List.getD_eq_default _ _ (H 10 (by omega)),
    List.getD_eq_default _ _ (H 11 (by omega)),
    List.getD_eq_default _ _ (H 12 (by omega)),
    List.getD_eq_default _ _ (H 13 (by omega)),
    List.getD_eq_default _ _ (H 14 (by omega)),
    List.getD_eq_default _ _ (H 15 (by omega)),
    List.getD_eq_default _ _ (H 16 (by omega)),
    List.getD_eq_default _ _ (H 17 (by omega)),
    List.getD_eq_default _ _ (H 18 (by omega)),
    List.getD_eq_default _ _ (H 19 (by omega)),
    List.getD_eq_default _ _ (H 20 (by omega)),
    List.getD_eq_default _ _ (H 21 (by omega))]
  rfl

lemma getD_map_clean (ps : List String) (i : ℕ) (d : String) (hi : i < ps.length) :
    (ps.map clean).getD i d = clean (ps.getD i "") := by
  have hi2 : i < (ps.map clean).length := by rw [List.length_map]; exact hi
  rw [List.getD_eq_getElem _ _ hi2, List.getD_eq_getElem _ _ hi, List.getElem_map]

lemma getD_set_ne {α : Type} (l : List α) (a : α) {i j : ℕ} (h : i ≠ j) (d : α) :
    (l.set i a).getD j d = l.getD j d := by
  rw [List.getD_eq_getD_get?, List.getD_eq_getD_get?, List.get?_eq_getElem?,
    List.get?_eq_getElem?, List.getElem?_set_ne h]

lemma extract_set7 (ps : List String) (v : String) :
    extract_template_blocks (ps.set 7 v) = extract_template_blocks ps := by
  simp only [extract_template_blocks, List.map_set]
  rw [getD_set_ne _ _ (show (7 : ℕ) ≠ 6 by omega),
    getD_set_ne _ _ (show (7 : ℕ) ≠ 8 by omega),
    getD_set_ne _ _ (show (7 : ℕ) ≠ 9 by omega),
    getD_set_ne _ _ (show (7 : ℕ) ≠ 10 by omega),
    getD_set_ne _ _ (show (7 : ℕ) ≠ 11 by omega),
    getD_set_ne _ _ (show (7 : ℕ) ≠ 12 by omega),
    getD_set_ne _ _ (show (7 : ℕ) ≠ 13 by omega),
    getD_set_ne _ _ (show (7 : ℕ) ≠ 14 by omega),
    getD_set_ne _ _ (show (7 : ℕ) ≠ 15 by omega),
    getD_set_ne _ _ (show (7 : ℕ) ≠ 16 by omega),
    getD_set_ne _ _ (show (7 : ℕ) ≠ 17 by omega),
    getD_set_ne _ _ (show (7 : ℕ) ≠ 18 by omega),
    getD_set_ne _ _ (show (7 : ℕ) ≠ 19 by omega),
    getD_set_ne _ _ (show (7 : ℕ) ≠ 20 by omega),
    getD_set_ne _ _ (show (7 : ℕ) ≠ 21 by omega)]

lemma build_doc_eq (args : Args) (refdoc : List String) :
    build_doc args refdoc =
      (format_ru_date args.sign_date).bind fun signDatePhrase =>
        (format_ru_date args.agreement_date).bind fun agreementDatePhrase =>
          some (rendered_paras args
            (((extract_template_blocks refdoc).lookup "h1").getD "")
            (((extract_template_blocks refdoc).lookup "p12").getD "")
            (((extract_template_blocks refdoc).lookup "bullets").getD "")
            (((extract_template_blocks refdoc).lookup "h2").getD "")
            (((extract_template_blocks refdoc).lookup "p21").getD "")
            (((extract_template_blocks refdoc).lookup "p22").getD "")
            (((extract_template_blocks refdoc).lookup "p23").getD "")
            (((extract_template_blocks refdoc).lookup "h3").getD "")
            (((extract_template_blocks refdoc).lookup "p31").getD "")
            (((extract_template_blocks refdoc).lookup "p32").getD "")
            (((extract_template_blocks refdoc).lookup "h4").getD "")
            (((extract_template_blocks refdoc).lookup "p41").getD "")
            (((extract_template_blocks refdoc).lookup "p42").getD "")
            (((extract_template_blocks refdoc).lookup "p43").getD "")
            (((extract_template_blocks refdoc).lookup "h5").getD "")
            signDatePhrase agreementDatePhrase) := rfl

lemma rendered_paras_length (args : Args)
    (h1 p12 bullets h2 p21 p22 p23 h3 p31 p32 h4 p41 p42 p43 h5 sd ad : String) :
    (rendered_paras args h1 p12 bullets h2 p21 p22 p23 h3 p31 p32 h4 p41
        p42 p43 h5 sd ad).length
      = 24 + (bullet_items bullets).length := by
  simp only [rendered_paras, List.length_append, List.length_map,
    List.length_cons, List.length_nil]
  omega

/-! ## Claims -/

/-- C1, counterexample: the claim says no key is ever bound to an empty
string, but on a canonical-layout reference document whose paragraphs
are all empty, the extractor binds `h1` to the cleaned empty paragraph,
which is the empty string. -/
theorem C1_counterexample :
    (extract_template_blocks (List.replicate 22 "")).lookup "h1" = some "" := rfl

/-- C1 (amended): the clause map always contains every key of the fixed
set actually constructed by the extractor (`h1`–`h5`, `p12`,
`p21`–`p23`, `p31`, `p32`, `p41`–`p43`, `bullets`); there is no `p11`
key (paragraph 1.1 is generated from the parameter set, never
extracted); and every documented fallback value is non-empty — but a
value extracted from the reference document may be empty. -/
theorem C1_amended (ps : List String) (k : String) (hk : k ∈ CLAUSE_KEYS) :
    ((extract_template_blocks ps).lookup k).isSome = true ∧
    (extract_template_blocks ps).lookup "p11" = none ∧
    FALLBACK_CLAUSES.lookup k ≠ some "" := by
  simp only [CLAUSE_KEYS] at hk
  refine ⟨?_, rfl, ?_⟩
  · fin_cases hk <;> rfl
  · fin_cases hk <;> decide

/-- C1, witness: the amended statement at the empty reference document
and the key `h1`. -/
theorem C1_amended_witness :
    ((extract_template_blocks []).lookup "h1").isSome = true ∧
    (extract_template_blocks []).lookup "p11" = none ∧
    FALLBACK_CLAUSES.lookup "h1" ≠ some "" :=
  C1_amended [] "h1" (by decide)

/-- C2: for every reference document with fewer than 7 paragraphs, the
clause map contains all fixed keys, each bound exactly to its documented
hard-coded fallback string. -/
theorem C2_short_doc_fallback (ps : List String) (h : ps.length < 7) :
    extract_template_blocks ps = FALLBACK_CLAUSES :=
  extract_short ps h

/-- C2, witness: the empty reference document. -/
theorem C2_witness : extract_template_blocks [] = FALLBACK_CLAUSES :=
  C2_short_doc_fallback [] (by decide)

/-- C3: for every reference document with the canonical layout (at least
22 paragraphs), every clause-map value is the cleaned text of the
reference paragraph at the key's fixed positional index, where `clean`
turns U+2028 into a newline, U+00A0 into a space, and trims surrounding
whitespace. -/
theorem C3_canonical_extraction (ps : List String) (h : 22 ≤ ps.length) :
    extract_template_blocks ps =
      [("h1", clean (ps.getD 6 "")),
       ("p12", clean (ps.getD 8 "")),
       ("bullets", clean (ps.getD 9 "")),
       ("h2", clean (ps.getD 10 "")),
       ("p21", clean (ps.getD 11 "")),
       ("p22", clean (ps.getD 12 "")),
       ("p23", clean (ps.getD 13 "")),
       ("h3", clean (ps.getD 14 "")),
       ("p31", clean (ps.getD 15 "")),
       ("p32", clean (ps.getD 16 "")),
       ("h4", clean (ps.getD 17 "")),
       ("p41", clean (ps.getD 18 "")),
       ("p42", clean (ps.getD 19 "")),
       ("p43", clean (ps.getD 20 "")),
       ("h5", clean (ps.getD 21 ""))] := by
  simp only [extract_template_blocks]
  rw [getD_map_clean ps 6 _ (by omega), getD_map_clean ps 8 _ (by omega),
    getD_map_clean ps 9 _ (by omega), getD_map_clean ps 10 _ (by omega),
    getD_map_clean ps 11 _ (by omega), getD_map_clean ps 12 _ (by omega),
    getD_map_clean ps 13 _ (by omega), getD_map_clean ps 14 _ (by omega),
    getD_map_clean ps 15 _ (by omega), getD_map_clean ps 16 _ (by omega),
    getD_map_clean ps 17 _ (by omega), getD_map_clean ps 18 _ (by omega),
    getD_map_clean ps 19 _ (by omega), getD_map_clean ps 20 _ (by omega),
    getD_map_clean ps 21 _ (by omega)]

/-- C3, witness: the canonical 22-paragraph document `refdoc0`. -/
theorem C3_witness :
    extract_template_blocks refdoc0 =
      [("h1", clean (refdoc0.getD 6 "")),
       ("p12", clean (refdoc0.getD 8 "")),
       ("bullets", clean (refdoc0.getD 9 "")),
       ("h2", clean (refdoc0.getD 10 "")),
       ("p21", clean (refdoc0.getD 11 "")),
       ("p22", clean (refdoc0.getD 12 "")),
       ("p23", clean (refdoc0.getD 13 "")),
       ("h3", clean (refdoc0.getD 14 "")),
       ("p31", clean (refdoc0.getD 15 "")),
       ("p32", clean (refdoc0.getD 16 "")),
       ("h4", clean (refdoc0.getD 17 "")),
       ("p41", clean (refdoc0.getD 18 "")),
       ("p42", clean (refdoc0.getD 19 "")),
       ("p43", clean (refdoc0.getD 20 "")),
       ("h5", clean (refdoc0.getD 21 ""))] :=
  C3_canonical_extraction refdoc0 (by decide)

/-- C4: for every date string `D.M.Y` whose day and year components are
dot-free and whose month component is a valid code of the fixed
12-entry lookup, the date phraser returns exactly «D» name Y года with
the month name from the lookup and the day and year preserved
verbatim. -/
theorem C4_date_phraser_valid_months (d m y name : String)
    (hd : '.' ∉ d.data) (hy : '.' ∉ y.data)
    (hname : MONTHS.lookup m = some name) :
    format_ru_date (d ++ "." ++ m ++ "." ++ y) =
      some ("«" ++ d ++ "» " ++ name ++ " " ++ y ++ " года") := by
  rw [format_ru_date_split d m y hd (month_code_no_dot m name hname) hy, hname]
  rfl

/-- C4, witness: "15.03.2024" maps to «15» марта 2024 года. -/
theorem C4_witness : format_ru_date "15.03.2024" = some "«15» марта 2024 года" :=
  C4_date_phraser_valid_months "15" "03" "2024" "марта" (by decide) (by decide) rfl

/-- C5: for every date string `D.M.Y` whose month component is outside
the twelve valid codes, the date phraser fails (the Python `KeyError`,
modelled as `none`) rather than returning a phrase. -/
theorem C5_date_phraser_invalid_month (d m y : String)
    (hd : '.' ∉ d.data) (hm : '.' ∉ m.data) (hy : '.' ∉ y.data)
    (hnone : MONTHS.lookup m = none) :
    format_ru_date (d ++ "." ++ m ++ "." ++ y) = none := by
  rw [format_ru_date_split d m y hd hm hy, hnone]
  rfl

/-- C5, witness: month code "13". -/
theorem C5_witness : format_ru_date "15.13.2024" = none :=
  C5_date_phraser_invalid_month "15" "13" "2024" (by decide) (by decide)
    (by decide) rfl

/-- C6: the grammatical-case selector returns the agent-specific dative
and genitive phrases for "agent" and the generic forms for "contract",
and for each grammatical case the two results are distinct.  Both
selectors are total Lean functions on strings, so the selector never
fails on the closed enumeration. -/
theorem C6_agreement_selector :
    agreement_label_dative "agent" = "агентскому договору" ∧
    agreement_label_genitive "agent" = "агентского договора" ∧
    agreement_label_dative "contract" = "договору" ∧
    agreement_label_genitive "contract" = "договора" ∧
    agreement_label_dative "agent" ≠ agreement_label_dative "contract" ∧
    agreement_label_genitive "agent" ≠ agreement_label_genitive "contract" :=
  ⟨rfl, rfl, rfl, rfl, by decide, by decide⟩

/-- C7: splitting the hard-coded fallback bullets string with the
renderer's bullet-splitting step yields exactly four items, none
starting with a bullet marker and none carrying leading or trailing
whitespace. -/
theorem C7_bullet_split :
    (bullet_items FALLBACK_BULLETS).length = 4 ∧
    (bullet_items FALLBACK_BULLETS).all good_item = true := by decide

/-- C8, counterexample: the claim says the output paragraph count is a
fixed expected number for every canonical-layout reference document,
but two canonical 22-paragraph documents that differ only in how many
lines their bullets paragraph holds produce documents of 25 and 26
paragraphs. -/
theorem C8_counterexample :
    22 ≤ refdocA.length ∧ 22 ≤ refdocB.length ∧
    (build_doc args0 refdocA).map List.length = some 25 ∧
    (build_doc args0 refdocB).map List.length = some 26 :=
  ⟨by decide, by decide, rfl, rfl⟩

/-- C8 (amended): for every parameter set whose two dates format
successfully and every canonical-layout reference document, the
renderer succeeds and produces 24 paragraphs (title, subtitle,
city/date line, intro, five heading-plus-body blocks, signature rows)
plus one paragraph per bullet item split from the bullets clause — 28
when the bullets clause is the canonical four-bullet text — and the
title paragraph text equals "Дополнительное соглашение № " concatenated
with the supplied document number. -/
theorem C8_amended (args : Args) (refdoc : List String) (sd ad : String)
    (hcanon : 22 ≤ refdoc.length)
    (hs : format_ru_date args.sign_date = some sd)
    (ha : format_ru_date args.agreement_date = some ad) :
    ∃ out, build_doc args refdoc = some out ∧
      out.length
        = 24 + (bullet_items
            (((extract_template_blocks refdoc).lookup "bullets").getD "")).length ∧
      (out.get? 0).map Para.text
        = some ("Дополнительное соглашение № " ++ args.ds_no) := by
  refine ⟨rendered_paras args
      (((extract_template_blocks refdoc).lookup "h1").getD "")
      (((extract_template_blocks refdoc).lookup "p12").getD "")
      (((extract_template_blocks refdoc).lookup "bullets").getD "")
      (((extract_template_blocks refdoc).lookup "h2").getD "")
      (((extract_template_blocks refdoc).lookup "p21").getD "")
      (((extract_template_blocks refdoc).lookup "p22").getD "")
      (((extract_template_blocks refdoc).lookup "p23").getD "")
      (((extract_template_blocks refdoc).lookup "h3").getD "")
      (((extract_template_blocks refdoc).lookup "p31").getD "")
      (((extract_template_blocks refdoc).lookup "p32").getD "")
      (((extract_template_blocks refdoc).lookup "h4").getD "")
      (((extract_template_blocks refdoc).lookup "p41").getD "")
      (((extract_template_blocks refdoc).lookup "p42").getD "")
      (((extract_template_blocks refdoc).lookup "p43").getD "")
      (((extract_template_blocks refdoc).lookup "h5").getD "")
      sd ad, ?_, ?_, ?_⟩
  · rw [build_doc_eq, hs, ha]
    simp only [Option.some_bind]
  · exact rendered_paras_length args _ _ _ _ _ _ _ _ _ _ _ _ _ _ _ sd ad
  · rfl

/-- C8, witness: the concrete parameter set `args0` and the canonical
document `refdoc0`. -/
theorem C8_amended_witness :
    ∃ out, build_doc args0 refdoc0 = some out ∧
      out.length
        = 24 + (bullet_items
            (((extract_template_blocks refdoc0).lookup "bullets").getD "")).length ∧
      (out.get? 0).map Para.text
        = some ("Дополнительное соглашение № " ++ args0.ds_no) :=
  C8_amended args0 refdoc0 "«01» января 2024 года" "«02» февраля 2024 года"
    (by decide) rfl rfl

/-- C9, counterexample: the claim says line spacing is a
caller-selectable option of paragraph construction, but the line
spacing of a constructed paragraph is the constant 1.15 whatever
configuration and text the caller supplies. -/
theorem C9_counterexample :
    (fun (cfg : AddParaConfig) (text : String) => (add_para cfg text).lineSpacing)
      = fun _ _ => (23 : ℚ) / 20 :=
  funext fun _ => funext fun _ => rfl

/-- C9 (amended): paragraph construction accepts a configuration whose
recognized options are alignment, bold, font size, spacing-before,
spacing-after and the first-line-indent flag — each with exactly the
corresponding effect, the 1.25 cm first-line indent applied iff the
flag is set — while line spacing is not caller-selectable: it is fixed
at 1.15 on every paragraph, including two-column signature rows. -/
theorem C9_amended (cfg : AddParaConfig) (text : String)
    (l r : String) (b : Bool) (a : ℕ) :
    (add_para cfg text).text = text ∧
    (add_para cfg text).align = some cfg.align ∧
    (add_para cfg text).bold = some cfg.bold ∧
    (add_para cfg text).size = cfg.size ∧
    (add_para cfg text).before = some cfg.before ∧
    (add_para cfg text).after = cfg.after ∧
    (add_para cfg text).lineSpacing = 23 / 20 ∧
    ((add_para cfg text).firstIndentCm
      = if cfg.first_indent then some (5 / 4) else none) ∧
    (add_two_col l r b a).align = some Align.left ∧
    (add_two_col l r b a).bold = some b ∧
    (add_two_col l r b a).after = a ∧
    (add_two_col l r b a).lineSpacing = 23 / 20 ∧
    (add_two_col l r b a).firstIndentCm = none :=
  ⟨rfl, rfl, rfl, rfl, rfl, rfl, rfl, rfl, rfl, rfl, rfl, rfl, rfl⟩

/-- C10: body paragraph 1.1 of the output document (its sixth
paragraph) is the hard-coded sentence interpolated only from the
parameter set — `p11_text` mentions no reference-document data — and
the extractor never reads paragraph index 7: rewriting it leaves the
clause map unchanged. -/
theorem C10_p11_parameter_only (args : Args) (refdoc : List String)
    (out : List Para) (ad : String)
    (hb : build_doc args refdoc = some out)
    (ha : format_ru_date args.agreement_date = some ad) :
    (out.get? 5).map Para.text = some (p11_text args ad) ∧
    ∀ v, extract_template_blocks (refdoc.set 7 v) = extract_template_blocks refdoc := by
  constructor
  · rw [build_doc_eq] at hb
    cases hsd : format_ru_date args.sign_date with
    | none => rw [hsd] at hb; simp at hb
    | some sd =>
      rw [hsd, ha] at hb
      simp only [Option.some_bind] at hb
      have hout := (Option.some.inj hb).symm
      subst hout
      rfl
  · intro v
    exact extract_set7 refdoc v

/-- C10, witness: the concrete parameter set `args0` and document
`refdoc0`, with index 7 rewritten to "x". -/
theorem C10_witness :
    ((((build_doc args0 refdoc0).getD []).get? 5).map Para.text
      = some (p11_text args0 "«02» февраля 2024 года")) ∧
    extract_template_blocks (refdoc0.set 7 "x") = extract_template_blocks refdoc0 :=
  ⟨(C10_p11_parameter_only args0 refdoc0 ((build_doc args0 refdoc0).getD [])
      "«02» февраля 2024 года" rfl rfl).1,
   (C10_p11_parameter_only args0 refdoc0 ((build_doc args0 refdoc0).getD [])
      "«02» февраля 2024 года" rfl rfl).2 "x"⟩

end MarkingDS
